import Mathlib

/-!
Verification of the `memthick` membrane-thickness tool (`src/main.rs`).

The numeric payload of the program is embedded shallowly:

* `f64` values are modelled by `MFloat`: an exact rational together with the
  IEEE-754 special values NaN, +inf and -inf.  Rounding and overflow are
  abstracted away (rationals are exact); the NaN/infinity propagation rules of
  the operations the program uses are modelled faithfully.
* `f32` coordinates are modelled by exact rationals.
* The `GridMap` container comes from the external `groan_rs` crate, whose
  source is not part of this repository; its behaviour is modelled from the
  specification's contract (construction, cell indexing, half-open bounds,
  row-major extraction).  Definitions modelled this way carry a doc comment
  starting `Modelled from the spec:`.
* The control flow of `run` (`src/main.rs`, lines 229-357) is embedded as a
  function from the parsed arguments and an environment of oracle results
  (file loads, group sizes, trajectory frames) to an outcome together with the
  ordered list of file-I/O events the run performs.
-/

namespace Memthick

/-- Model of an `f64` value: NaN, signed infinities, or a finite value
represented exactly as a rational (rounding is abstracted away). -/
inductive MFloat where
  | nan : MFloat
  | inf : MFloat
  | ninf : MFloat
  | fin : ℚ → MFloat
deriving DecidableEq

/-- IEEE-754 subtraction on `MFloat` (sign of zero ignored). -/
def MFloat.sub : MFloat → MFloat → MFloat
  | .nan, _ => .nan
  | _, .nan => .nan
  | .inf, .inf => .nan
  | .inf, .ninf => .inf
  | .inf, .fin _ => .inf
  | .ninf, .inf => .ninf
  | .ninf, .ninf => .nan
  | .ninf, .fin _ => .ninf
  | .fin _, .inf => .ninf
  | .fin _, .ninf => .inf
  | .fin a, .fin b => .fin (a - b)

/-- IEEE-754 division on `MFloat` (sign of zero ignored, so `x / 0` with
`x > 0` is `+inf` and `0 / 0` is NaN, as for positive zero). -/
def MFloat.div : MFloat → MFloat → MFloat
  | .nan, _ => .nan
  | _, .nan => .nan
  | .inf, .inf => .nan
  | .inf, .ninf => .nan
  | .ninf, .inf => .nan
  | .ninf, .ninf => .nan
  | .inf, .fin b => if 0 ≤ b then .inf else .ninf
  | .ninf, .fin b => if 0 ≤ b then .ninf else .inf
  | .fin _, .inf => .fin 0
  | .fin _, .ninf => .fin 0
  | .fin a, .fin b =>
    if b = 0 then (if a = 0 then .nan else if 0 < a then .inf else .ninf)
    else .fin (a / b)

/-- Model of `f64::is_finite`: true exactly on finite values. -/
def MFloat.isFinite : MFloat → Bool
  | .fin _ => true
  | _ => false

/-- The four per-cell accumulator values that `write_map` receives for one
grid cell after zipping the four grids (`src/main.rs`, lines 195-200). -/
structure CellData where
  upper_sum : ℚ
  upper_count : ℕ
  lower_sum : ℚ
  lower_count : ℕ
deriving DecidableEq

/-- The per-cell thickness computed by `write_map` (`src/main.rs`, lines
201-207): NaN when either leaflet count is below `nan_limit`, otherwise the
difference of the two leaflet averages. -/
def cell_thickness (nan_limit : ℕ) (c : CellData) : MFloat :=
  if c.upper_count < nan_limit || c.lower_count < nan_limit then .nan
  else
    let upper_av := MFloat.div (.fin c.upper_sum) (.fin (c.upper_count : ℚ))
    let lower_av := MFloat.div (.fin c.lower_sum) (.fin (c.lower_count : ℚ))
    MFloat.sub upper_av lower_av

/-- The running list `average_thickness` built by `write_map` (`src/main.rs`,
lines 215-217): the finite per-cell thickness values, in cell order. -/
def finite_thicknesses (nan_limit : ℕ) (cells : List CellData) : List ℚ :=
  cells.filterMap fun c =>
    match cell_thickness nan_limit c with
    | .fin q => some q
    | _ => none

/-- The global average thickness written by `write_map` (`src/main.rs`, lines
220-224): the sum of the collected finite thicknesses divided by their count,
as `f64` division (so an empty list gives `0.0 / 0.0 = NaN`). -/
def average_thickness (nan_limit : ℕ) (cells : List CellData) : MFloat :=
  let l := finite_thicknesses nan_limit cells
  MFloat.div (.fin l.sum) (.fin (l.length : ℚ))

/-- The two membrane leaflets. -/
inductive Leaflet where
  | upper : Leaflet
  | lower : Leaflet
deriving DecidableEq

/-- The leaflet selected for a head-group marker from its signed z-distance to
the membrane center: the test `zdist > 0.0` used at `src/main.rs` lines 324
and 334 (`true` selects the upper-leaflet grids, `false` the lower ones). -/
def classifyLeaflet (zdist : ℚ) : Leaflet :=
  if zdist > 0 then .upper else .lower

/-- Modelled from the spec: the shared geometry of the four `GridMap`
instances (`groan_rs` crate, constructed at `src/main.rs` lines 279-305) — an
axis-aligned rectangle and a per-axis cell size. -/
structure GridGeom where
  xmin : ℚ
  xmax : ℚ
  ymin : ℚ
  ymax : ℚ
  binx : ℚ
  biny : ℚ
deriving DecidableEq

/-- Modelled from the spec: the cell index of a coordinate on one axis,
`floor((coord - min) / size)`. -/
def cellIndex (min size c : ℚ) : ℤ :=
  ⌊(c - min) / size⌋

/-- Modelled from the spec: the number of cells on one axis,
`ceil((max - min) / size)`. -/
def axisCells (min max size : ℚ) : ℕ :=
  (⌈(max - min) / size⌉).toNat

/-- Modelled from the spec: `GridMap::get_mut_at` resolves a planar position
to its owning cell when the position lies inside the half-open rectangle
`[xmin, xmax) × [ymin, ymax)`, and to nothing otherwise (no mutation, no
error). -/
def GridGeom.get_mut_at (g : GridGeom) (x y : ℚ) : Option (ℤ × ℤ) :=
  if g.xmin ≤ x ∧ x < g.xmax ∧ g.ymin ≤ y ∧ y < g.ymax then
    some (cellIndex g.xmin g.binx x, cellIndex g.ymin g.biny y)
  else none

/-- Modelled from the spec: `GridMap::new` succeeds exactly when neither axis
range is inverted and the cell size is positive on both axes. -/
def GridGeom.valid (g : GridGeom) : Bool :=
  decide (g.xmin ≤ g.xmax) && decide (g.ymin ≤ g.ymax) &&
    decide (0 < g.binx) && decide (0 < g.biny)

/-- The contents of the four grids of `run` (`src/main.rs`, lines 279-305),
each given by the accumulator stored at every cell index. -/
structure GridState where
  grid_upper : ℤ × ℤ → ℚ
  grid_lower : ℤ × ℤ → ℚ
  count_upper : ℤ × ℤ → ℕ
  count_lower : ℤ × ℤ → ℕ

/-- The freshly constructed grids: every cell accumulator starts at zero. -/
def zeroState : GridState :=
  ⟨fun _ => 0, fun _ => 0, fun _ => 0, fun _ => 0⟩

/-- One head-group marker observation within a frame: its planar position and
its signed z-distance from the membrane center. -/
structure Obs where
  x : ℚ
  y : ℚ
  z : ℚ
deriving DecidableEq

/-- The body of the per-marker loop of `run` (`src/main.rs`, lines 324-342):
first the sum grid of the leaflet selected by the sign of `zdist` is looked
up at the marker's planar position and, when the lookup succeeds, the signed
distance is added to the cell; then the matching count grid is looked up the
same way and, when that lookup succeeds, its cell is incremented.  All four
grids share the geometry `g`. -/
def stepObs (g : GridGeom) (s : GridState) (o : Obs) : GridState :=
  let s1 :=
    match classifyLeaflet o.z with
    | .upper =>
      match g.get_mut_at o.x o.y with
      | some idx =>
        { s with grid_upper := Function.update s.grid_upper idx (s.grid_upper idx + o.z) }
      | none => s
    | .lower =>
      match g.get_mut_at o.x o.y with
      | some idx =>
        { s with grid_lower := Function.update s.grid_lower idx (s.grid_lower idx + o.z) }
      | none => s
  match classifyLeaflet o.z with
  | .upper =>
    match g.get_mut_at o.x o.y with
    | some idx =>
      { s1 with count_upper := Function.update s1.count_upper idx (s1.count_upper idx + 1) }
    | none => s1
  | .lower =>
    match g.get_mut_at o.x o.y with
    | some idx =>
      { s1 with count_lower := Function.update s1.count_lower idx (s1.count_lower idx + 1) }
    | none => s1

/-- Folding a sequence of marker observations into the grids, in order. -/
def accumulate (g : GridGeom) (s : GridState) (l : List Obs) : GridState :=
  l.foldl (stepObs g) s

/-- The configuration values of `Args` that the control flow of `run` depends
on (`src/main.rs`, lines 19-115); the file paths and selection strings are
abstracted into the environment. -/
structure RunArgs where
  nan_limit : ℕ
  xmin : Option ℚ
  xmax : Option ℚ
  ymin : Option ℚ
  ymax : Option ℚ
  bin_size : ℚ
  has_index : Bool
deriving DecidableEq

/-- The oracle results of the external collaborators consulted by `run`: file
loads, box data, group sizes and the trajectory.  A trajectory frame is
`some obs` when it yields the listed marker observations and `none` when its
retrieval or per-atom resolution fails. -/
structure RunEnv where
  structure_ok : Bool
  index_ok : Bool
  box_valid : Bool
  box_x : ℚ
  box_y : ℚ
  lipids_count : ℕ
  heads_count : ℕ
  frames : List (Option (List Obs))
deriving DecidableEq

/-- The file-I/O actions `run` can perform, in the order it performs them. -/
inductive IOEvent where
  | readStructure : IOEvent
  | readIndex : IOEvent
  | readTrajectory : IOEvent
  | writeOutput : IOEvent
deriving DecidableEq

/-- The distinct failure exits of `run`. -/
inductive RunError where
  | nanLimitZero : RunError
  | xRangeInverted : RunError
  | yRangeInverted : RunError
  | structureError : RunError
  | indexError : RunError
  | boxError : RunError
  | emptyLipids : RunError
  | emptyHeads : RunError
  | invalidGrid : RunError
  | frameError : RunError
deriving DecidableEq

/-- Rust's derived `PartialOrd` on `Option<f32>` restricted to the `>` test
used by `sanity_check_options` (`src/main.rs`, lines 151-157): `None` orders
below every `Some` value, so `a > b` holds when `a` is a value and `b` is
either `None` or a smaller value. -/
def optGt (a b : Option ℚ) : Bool :=
  match a, b with
  | none, _ => false
  | some _, none => true
  | some x, some y => decide (y < x)

/-- `sanity_check_options` (`src/main.rs`, lines 146-160): rejects a zero
`nan_limit`, then compares the optional grid bounds of each axis directly
with `Option`'s ordering. -/
def sanity_check_options (args : RunArgs) : Option RunError :=
  if args.nan_limit = 0 then some .nanLimitZero
  else if optGt args.xmin args.xmax then some .xRangeInverted
  else if optGt args.ymin args.ymax then some .yRangeInverted
  else none

/-- The frame loop of `run` (`src/main.rs`, lines 307-344): frames are
consumed in order; a failing frame aborts the loop, a successful one has all
its marker observations folded into the grids. -/
def processFrames (g : GridGeom) (s : GridState) :
    List (Option (List Obs)) → Option GridState
  | [] => some s
  | none :: _ => none
  | some obs :: rest => processFrames g (accumulate g s obs) rest

/-- The control flow of `run` (`src/main.rs`, lines 229-357): the result is
the failure exit (or `none` on success) paired with the ordered list of
file-I/O events performed.  Sanity checks run before the structure file is
read; the optional index file is read next; the box is validated and the
grid bounds default to `[0, box extent]`; the two groups must be non-empty;
the four grids are constructed (failing on an invalid geometry); the
trajectory is then opened and streamed; only after every frame succeeds is
the output written. -/
def runModel (args : RunArgs) (env : RunEnv) :
    Option RunError × List IOEvent :=
  match sanity_check_options args with
  | some e => (some e, [])
  | none =>
    if !env.structure_ok then (some .structureError, [.readStructure])
    else if args.has_index && !env.index_ok then
      (some .indexError, [.readStructure, .readIndex])
    else
      let evs := if args.has_index then
          [IOEvent.readStructure, IOEvent.readIndex]
        else [IOEvent.readStructure]
      if !env.box_valid then (some .boxError, evs)
      else if env.lipids_count = 0 then (some .emptyLipids, evs)
      else if env.heads_count = 0 then (some .emptyHeads, evs)
      else
        let g : GridGeom :=
          ⟨args.xmin.getD 0, args.xmax.getD env.box_x,
           args.ymin.getD 0, args.ymax.getD env.box_y,
           args.bin_size, args.bin_size⟩
        if !g.valid then (some .invalidGrid, evs)
        else
          match processFrames g zeroState env.frames with
          | none => (some .frameError, evs ++ [.readTrajectory])
          | some _ => (none, evs ++ [.readTrajectory, .writeOutput])

/-- `main` (`src/main.rs`, lines 359-366): a failing run exits with code 1,
a successful one with code 0. -/
def exitCode (outcome : Option RunError × List IOEvent) : ℕ :=
  if outcome.1.isSome then 1 else 0

/-- C1: at finalization the reported thickness of a grid cell is NaN whenever
either leaflet's sample count is below the configured minimum, regardless of
the accumulated sums; otherwise it is the upper-leaflet average minus the
lower-leaflet average, `upper_sum / upper_count - lower_sum / lower_count`. -/
theorem cell_thickness_spec (nan_limit : ℕ) (c : CellData)
    (h : 1 ≤ nan_limit) :
    cell_thickness nan_limit c =
      if c.upper_count < nan_limit ∨ c.lower_count < nan_limit then MFloat.nan
      else MFloat.fin (c.upper_sum / (c.upper_count : ℚ) -
        c.lower_sum / (c.lower_count : ℚ)) := by
  by_cases hcond : c.upper_count < nan_limit ∨ c.lower_count < nan_limit
  · rw [if_pos hcond]
    have hb : (c.upper_count < nan_limit || c.lower_count < nan_limit) = true := by
      simpa [Bool.or_eq_true, decide_eq_true_eq] using hcond
    simp [cell_thickness, hb]
  · rw [if_neg hcond]
    push_neg at hcond
    obtain ⟨hu, hl⟩ := hcond
    have hu0 : (c.upper_count : ℚ) ≠ 0 := by
      have : c.upper_count ≠ 0 := by omega
      exact_mod_cast this
    have hl0 : (c.lower_count : ℚ) ≠ 0 := by
      have : c.lower_count ≠ 0 := by omega
      exact_mod_cast this
    have hb : (c.upper_count < nan_limit || c.lower_count < nan_limit) = false := by
      simp [Nat.not_lt.mpr hu, Nat.not_lt.mpr hl]
    simp [cell_thickness, hb, MFloat.div, MFloat.sub, hu0, hl0]

/-- Witness for C1: with threshold 30, a cell with counts (30, 30) and sums
(60, -30) gets thickness `60/30 - (-30)/30 = 3`, and a cell whose upper
count is 29 gets NaN regardless of its sums. -/
theorem cell_thickness_spec_witness :
    cell_thickness 30 ⟨60, 30, -30, 30⟩ = MFloat.fin 3 ∧
    cell_thickness 30 ⟨1000, 29, -30, 30⟩ = MFloat.nan :=
  ⟨(cell_thickness_spec 30 ⟨60, 30, -30, 30⟩ (by norm_num)).trans (by norm_num),
   (cell_thickness_spec 30 ⟨1000, 29, -30, 30⟩ (by norm_num)).trans (by norm_num)⟩

/-- C2: the global average written at the end of the output is the arithmetic
mean of the finite per-cell thickness values only; when no cell is defined
the division `0.0 / 0.0` yields NaN — not zero and not a failure. -/
theorem average_thickness_spec (nan_limit : ℕ) (cells : List CellData) :
    (finite_thicknesses nan_limit cells = [] →
      average_thickness nan_limit cells = MFloat.nan) ∧
    (finite_thicknesses nan_limit cells ≠ [] →
      average_thickness nan_limit cells =
        MFloat.fin ((finite_thicknesses nan_limit cells).sum /
          ((finite_thicknesses nan_limit cells).length : ℚ))) := by
  constructor
  · intro hl
    simp [average_thickness, hl, MFloat.div]
  · intro hl
    have hlen : ((finite_thicknesses nan_limit cells).length : ℚ) ≠ 0 := by
      have : (finite_thicknesses nan_limit cells).length ≠ 0 := by
        simpa [List.length_eq_zero] using hl
      exact_mod_cast this
    simp [average_thickness, MFloat.div, hlen]

/-- Witness for C2: with no defined cell the global average is NaN, and with
one defined cell of thickness `4/2 - (-2)/2 = 3` the global average is 3. -/
theorem average_thickness_spec_witness :
    average_thickness 1 ([] : List CellData) = MFloat.nan ∧
    average_thickness 1 [⟨4, 2, -2, 2⟩] = MFloat.fin 3 :=
  by
  have hft : finite_thicknesses 1 [⟨4, 2, -2, 2⟩] = [3] := by
    norm_num [finite_thicknesses, cell_thickness, MFloat.div, MFloat.sub,
      List.filterMap_cons]
  refine ⟨(average_thickness_spec 1 []).1 rfl, ?_⟩
  have h2 := (average_thickness_spec 1 [⟨4, 2, -2, 2⟩]).2 (by rw [hft]; simp)
  rw [hft] at h2
  simpa using h2

/-- C3: a marker's leaflet is selected purely by the sign of its one-axis
signed distance from the membrane center — strictly positive goes to the
upper leaflet, non-positive (zero included) to the lower leaflet — and the
accumulation step leaves the other leaflet's grids untouched. -/
theorem leaflet_by_sign (g : GridGeom) (s : GridState) (o : Obs) :
    (classifyLeaflet o.z = .upper ↔ 0 < o.z) ∧
    (classifyLeaflet o.z = .lower ↔ o.z ≤ 0) ∧
    classifyLeaflet 0 = .lower ∧
    (0 < o.z → (stepObs g s o).grid_lower = s.grid_lower ∧
      (stepObs g s o).count_lower = s.count_lower) ∧
    (o.z ≤ 0 → (stepObs g s o).grid_upper = s.grid_upper ∧
      (stepObs g s o).count_upper = s.count_upper) := by
  by_cases hz : 0 < o.z
  · have hc : classifyLeaflet o.z = .upper := by simp [classifyLeaflet, hz]
    refine ⟨by simp [hc, hz], by simp [hc, not_le.mpr hz], by simp [classifyLeaflet],
      fun _ => ?_, fun hle => absurd hz (not_lt.mpr hle)⟩
    cases hm : g.get_mut_at o.x o.y <;> simp [stepObs, hc, hm]
  · have hle : o.z ≤ 0 := not_lt.mp hz
    have hc : classifyLeaflet o.z = .lower := by simp [classifyLeaflet, hz]
    refine ⟨by simp [hc, hz], by simp [hc, hle], by simp [classifyLeaflet],
      fun hpos => absurd hpos hz, fun _ => ?_⟩
    cases hm : g.get_mut_at o.x o.y <;> simp [stepObs, hc, hm]

/-- Witness for C3: a marker with z-distance 2 leaves the lower-leaflet grids
of the fresh state unchanged. -/
theorem leaflet_by_sign_witness :
    (stepObs ⟨0, 10, 0, 10, 5, 5⟩ zeroState ⟨1, 1, 2⟩).grid_lower
        = zeroState.grid_lower ∧
    (stepObs ⟨0, 10, 0, 10, 5, 5⟩ zeroState ⟨1, 1, 2⟩).count_lower
        = zeroState.count_lower :=
  (leaflet_by_sign ⟨0, 10, 0, 10, 5, 5⟩ zeroState ⟨1, 1, 2⟩).2.2.2.1 (by norm_num)

/-- On one axis with positive cell size, an in-range coordinate's floor index
is a valid cell number: nonnegative and below `ceil((max - min) / size)`. -/
theorem cellIndex_bounds (min max size c : ℚ) (hsize : 0 < size)
    (hc1 : min ≤ c) (hc2 : c < max) :
    0 ≤ cellIndex min size c ∧
      cellIndex min size c < (axisCells min max size : ℤ) := by
  have hnum : (0 : ℚ) ≤ (c - min) / size :=
    div_nonneg (sub_nonneg.mpr hc1) hsize.le
  have hfl : 0 ≤ cellIndex min size c := Int.floor_nonneg.mpr hnum
  refine ⟨hfl, ?_⟩
  have hdivlt : (c - min) / size < (max - min) / size :=
    (div_lt_div_iff_of_pos_right hsize).mpr (by linarith)
  have hceil : (0 : ℚ) ≤ (max - min) / size := le_of_lt (lt_of_le_of_lt hnum hdivlt)
  have hlt : (⌊(c - min) / size⌋ : ℚ) < (⌈(max - min) / size⌉ : ℚ) :=
    lt_of_le_of_lt (Int.floor_le _) (lt_of_lt_of_le hdivlt (Int.le_ceil _))
  have hlt' : ⌊(c - min) / size⌋ < ⌈(max - min) / size⌉ := by exact_mod_cast hlt
  unfold cellIndex axisCells
  rwa [Int.toNat_of_nonneg (Int.ceil_nonneg hceil)]

/-- Modelled from the spec — C4: on a grid with positive cell sizes, a
coordinate inside the half-open rectangle `[xmin, xmax) × [ymin, ymax)` is
resolved to the unique cell `(floor((x - xmin) / binx), floor((y - ymin) /
biny))`, whose indices are valid for the `ceil((max - min) / size)` cells of
each axis; a position exactly on the `max` boundary of either axis is not
accumulated; and the position `(xmin, ymin)` maps to cell `(0, 0)`. -/
theorem grid_cell_indexing (g : GridGeom) (hbx : 0 < g.binx) (hby : 0 < g.biny) :
    (∀ x y, g.xmin ≤ x → x < g.xmax → g.ymin ≤ y → y < g.ymax →
      g.get_mut_at x y =
        some (⌊(x - g.xmin) / g.binx⌋, ⌊(y - g.ymin) / g.biny⌋) ∧
      0 ≤ ⌊(x - g.xmin) / g.binx⌋ ∧
      ⌊(x - g.xmin) / g.binx⌋ < (axisCells g.xmin g.xmax g.binx : ℤ) ∧
      0 ≤ ⌊(y - g.ymin) / g.biny⌋ ∧
      ⌊(y - g.ymin) / g.biny⌋ < (axisCells g.ymin g.ymax g.biny : ℤ)) ∧
    (∀ y, g.get_mut_at g.xmax y = none) ∧
    (∀ x, g.get_mut_at x g.ymax = none) ∧
    (g.xmin < g.xmax → g.ymin < g.ymax → g.get_mut_at g.xmin g.ymin = some (0, 0)) := by
  refine ⟨?_, ?_, ?_, ?_⟩
  · intro x y hx1 hx2 hy1 hy2
    obtain ⟨hx0, hxn⟩ := cellIndex_bounds g.xmin g.xmax g.binx x hbx hx1 hx2
    obtain ⟨hy0, hyn⟩ := cellIndex_bounds g.ymin g.ymax g.biny y hby hy1 hy2
    refine ⟨?_, hx0, hxn, hy0, hyn⟩
    simp [GridGeom.get_mut_at, cellIndex, hx1, hx2, hy1, hy2]
  · intro y
    simp [GridGeom.get_mut_at]
  · intro x
    simp [GridGeom.get_mut_at]
  · intro hx hy
    have h0x : cellIndex g.xmin g.binx g.xmin = 0 := by
      simp [cellIndex]
    have h0y : cellIndex g.ymin g.biny g.ymin = 0 := by
      simp [cellIndex]
    simp [GridGeom.get_mut_at, le_refl, hx, hy, h0x, h0y]

/-- Witness for C4: on the spec's example grid `[0,10) × [0,10)` with cell
size 5, the in-range position `(6, 1)` resolves to cell `(1, 0)` and the
position `(10, 5)` on the x-max boundary is rejected. -/
theorem grid_cell_indexing_witness :
    GridGeom.get_mut_at ⟨0, 10, 0, 10, 5, 5⟩ 6 1 = some (1, 0) ∧
    GridGeom.get_mut_at ⟨0, 10, 0, 10, 5, 5⟩ 10 5 = none := by
  constructor
  · have h := ((grid_cell_indexing ⟨0, 10, 0, 10, 5, 5⟩ (by norm_num) (by norm_num)).1
      6 1 (by norm_num) (by norm_num) (by norm_num) (by norm_num)).1
    rw [h]
    norm_num
  · exact (grid_cell_indexing ⟨0, 10, 0, 10, 5, 5⟩ (by norm_num) (by norm_num)).2.1 5

/-- C5: a marker whose planar position lies outside the configured rectangle
is silently dropped — the accumulation step leaves all four grids exactly as
they were, with no error. -/
theorem out_of_grid_dropped (g : GridGeom) (s : GridState) (o : Obs)
    (h : ¬(g.xmin ≤ o.x ∧ o.x < g.xmax ∧ g.ymin ≤ o.y ∧ o.y < g.ymax)) :
    stepObs g s o = s := by
  have hl : g.get_mut_at o.x o.y = none := by
    simp only [GridGeom.get_mut_at, if_neg h]
  cases hc : classifyLeaflet o.z <;> simp [stepObs, hc, hl]

/-- Witness for C5: the marker at `(-1, 5)` on the grid with `xmin = 0` from
the spec's scenario leaves the fresh grid state untouched. -/
theorem out_of_grid_dropped_witness :
    stepObs ⟨0, 10, 0, 10, 5, 5⟩ zeroState ⟨-1, 5, 2⟩ = zeroState :=
  out_of_grid_dropped ⟨0, 10, 0, 10, 5, 5⟩ zeroState ⟨-1, 5, 2⟩ (by norm_num)

/-- Closed form of the accumulation step: the cell lookup decides whether
anything changes, and the leaflet decides which sum/count pair is bumped. -/
theorem stepObs_eq (g : GridGeom) (s : GridState) (o : Obs) :
    stepObs g s o =
      match g.get_mut_at o.x o.y with
      | none => s
      | some idx =>
        match classifyLeaflet o.z with
        | .upper =>
          { s with
            grid_upper := Function.update s.grid_upper idx (s.grid_upper idx + o.z),
            count_upper := Function.update s.count_upper idx (s.count_upper idx + 1) }
        | .lower =>
          { s with
            grid_lower := Function.update s.grid_lower idx (s.grid_lower idx + o.z),
            count_lower := Function.update s.count_lower idx (s.count_lower idx + 1) } := by
  cases hm : g.get_mut_at o.x o.y <;> cases hc : classifyLeaflet o.z <;>
    simp [stepObs, hm, hc]

/-- Two additive bumps of the same function at (possibly equal) points can be
applied in either order. -/
theorem update_add_comm {β : Type} [AddCommMonoid β] (f : ℤ × ℤ → β)
    (i j : ℤ × ℤ) (u v : β) :
    Function.update (Function.update f i (f i + u)) j
        ((Function.update f i (f i + u)) j + v) =
      Function.update (Function.update f j (f j + v)) i
        ((Function.update f j (f j + v)) i + u) := by
  funext c
  by_cases hij : i = j
  · subst hij
    by_cases hc : c = i <;>
      simp [Function.update_apply, hc, add_assoc, add_comm u v]
  · by_cases hci : c = i
    · subst hci
      simp [Function.update_apply, hij, Ne.symm hij]
    · by_cases hcj : c = j
      · subst hcj
        simp [Function.update_apply, hij, Ne.symm hij]
      · simp [Function.update_apply, hci, hcj]

/-- Accumulation steps commute: processing two observations in either order
produces the same grids. -/
theorem stepObs_comm (g : GridGeom) (s : GridState) (a b : Obs) :
    stepObs g (stepObs g s a) b = stepObs g (stepObs g s b) a := by
  obtain ⟨gu, gl, cu, cl⟩ := s
  simp only [stepObs_eq]
  rcases ha : g.get_mut_at a.x a.y with _ | ia <;>
    rcases hb : g.get_mut_at b.x b.y with _ | ib <;>
      rcases hca : classifyLeaflet a.z with _ | _ <;>
        rcases hcb : classifyLeaflet b.z with _ | _ <;>
          simp [GridState.mk.injEq, update_add_comm]

/-- C6: accumulation is order-independent — two permutations of the same
multiset of marker observations, folded into the same starting grids, yield
identical final per-cell sums and counts. -/
theorem accumulate_perm (g : GridGeom) (s : GridState) (l₁ l₂ : List Obs)
    (hp : l₁.Perm l₂) :
    accumulate g s l₁ = accumulate g s l₂ :=
  hp.foldl_eq' (fun x _ y _ z => stepObs_comm g z x y) s

/-- Witness for C6: swapping two concrete observations does not change the
resulting grids. -/
theorem accumulate_perm_witness :
    accumulate ⟨0, 10, 0, 10, 5, 5⟩ zeroState [⟨1, 1, 2⟩, ⟨6, 1, -1⟩] =
      accumulate ⟨0, 10, 0, 10, 5, 5⟩ zeroState [⟨6, 1, -1⟩, ⟨1, 1, 2⟩] :=
  accumulate_perm ⟨0, 10, 0, 10, 5, 5⟩ zeroState _ _
    (List.Perm.swap (⟨6, 1, -1⟩ : Obs) (⟨1, 1, 2⟩ : Obs) [])

/-- An observation lands in cell `c` of leaflet `lf` when its sign test picks
that leaflet and its planar position resolves to that cell. -/
def obsInCell (g : GridGeom) (lf : Leaflet) (c : ℤ × ℤ) (o : Obs) : Bool :=
  decide (classifyLeaflet o.z = lf) && decide (g.get_mut_at o.x o.y = some c)

theorem stepObs_count_upper (g : GridGeom) (s : GridState) (o : Obs) (c : ℤ × ℤ) :
    (stepObs g s o).count_upper c =
      s.count_upper c + (if obsInCell g .upper c o then 1 else 0) := by
  rw [stepObs_eq]
  rcases hm : g.get_mut_at o.x o.y with _ | idx
  · simp [obsInCell, hm]
  · rcases hc : classifyLeaflet o.z with _ | _
    · by_cases hci : c = idx
      · subst hci
        simp [obsInCell, hm, hc, Function.update_apply]
      · simp [obsInCell, hm, hc, Function.update_apply, hci, Ne.symm hci]
    · simp [obsInCell, hc]

theorem stepObs_grid_upper (g : GridGeom) (s : GridState) (o : Obs) (c : ℤ × ℤ) :
    (stepObs g s o).grid_upper c =
      s.grid_upper c + (if obsInCell g .upper c o then o.z else 0) := by
  rw [stepObs_eq]
  rcases hm : g.get_mut_at o.x o.y with _ | idx
  · simp [obsInCell, hm]
  · rcases hc : classifyLeaflet o.z with _ | _
    · by_cases hci : c = idx
      · subst hci
        simp [obsInCell, hm, hc, Function.update_apply]
      · simp [obsInCell, hm, hc, Function.update_apply, hci, Ne.symm hci]
    · simp [obsInCell, hc]

theorem stepObs_count_lower (g : GridGeom) (s : GridState) (o : Obs) (c : ℤ × ℤ) :
    (stepObs g s o).count_lower c =
      s.count_lower c + (if obsInCell g .lower c o then 1 else 0) := by
  rw [stepObs_eq]
  rcases hm : g.get_mut_at o.x o.y with _ | idx
  · simp [obsInCell, hm]
  · rcases hc : classifyLeaflet o.z with _ | _
    · simp [obsInCell, hc]
    · by_cases hci : c = idx
      · subst hci
        simp [obsInCell, hm, hc, Function.update_apply]
      · simp [obsInCell, hm, hc, Function.update_apply, hci, Ne.symm hci]

theorem stepObs_grid_lower (g : GridGeom) (s : GridState) (o : Obs) (c : ℤ × ℤ) :
    (stepObs g s o).grid_lower c =
      s.grid_lower c + (if obsInCell g .lower c o then o.z else 0) := by
  rw [stepObs_eq]
  rcases hm : g.get_mut_at o.x o.y with _ | idx
  · simp [obsInCell, hm]
  · rcases hc : classifyLeaflet o.z with _ | _
    · simp [obsInCell, hc]
    · by_cases hci : c = idx
      · subst hci
        simp [obsInCell, hm, hc, Function.update_apply]
      · simp [obsInCell, hm, hc, Function.update_apply, hci, Ne.symm hci]

/-- Folding a list of observations adds, per cell and leaflet, the matching
observations' count and z-sum on top of the starting grids. -/
theorem accumulate_cell (g : GridGeom) (l : List Obs) (s : GridState) (c : ℤ × ℤ) :
    (accumulate g s l).count_upper c
        = s.count_upper c + (l.filter (obsInCell g .upper c)).length ∧
    (accumulate g s l).grid_upper c
        = s.grid_upper c + ((l.filter (obsInCell g .upper c)).map Obs.z).sum ∧
    (accumulate g s l).count_lower c
        = s.count_lower c + (l.filter (obsInCell g .lower c)).length ∧
    (accumulate g s l).grid_lower c
        = s.grid_lower c + ((l.filter (obsInCell g .lower c)).map Obs.z).sum := by
  induction l generalizing s with
  | nil => simp [accumulate]
  | cons o rest ih =>
    have hacc : accumulate g s (o :: rest) = accumulate g (stepObs g s o) rest := rfl
    obtain ⟨ih1, ih2, ih3, ih4⟩ := ih (stepObs g s o)
    rw [hacc]
    refine ⟨?_, ?_, ?_, ?_⟩
    · rw [ih1, stepObs_count_upper, List.filter_cons]
      by_cases ho : obsInCell g .upper c o <;> simp [ho] <;> omega
    · rw [ih2, stepObs_grid_upper, List.filter_cons]
      by_cases ho : obsInCell g .upper c o <;> simp [ho] <;> ring
    · rw [ih3, stepObs_count_lower, List.filter_cons]
      by_cases ho : obsInCell g .lower c o <;> simp [ho] <;> omega
    · rw [ih4, stepObs_grid_lower, List.filter_cons]
      by_cases ho : obsInCell g .lower c o <;> simp [ho] <;> ring

/-- C10: after folding any sequence of observations into the four freshly
constructed grids — which share one geometry, so the sum-cell lookup succeeds
exactly when the count-cell lookup does — every cell's count equals the
number of observations folded into that cell's sum, and the cell's sum is
exactly the sum of those observations' signed distances. -/
theorem counts_match_sums (g : GridGeom) (l : List Obs) (c : ℤ × ℤ) :
    ((accumulate g zeroState l).count_upper c
        = (l.filter (obsInCell g .upper c)).length ∧
      (accumulate g zeroState l).grid_upper c
        = ((l.filter (obsInCell g .upper c)).map Obs.z).sum) ∧
    ((accumulate g zeroState l).count_lower c
        = (l.filter (obsInCell g .lower c)).length ∧
      (accumulate g zeroState l).grid_lower c
        = ((l.filter (obsInCell g .lower c)).map Obs.z).sum) := by
  obtain ⟨h1, h2, h3, h4⟩ := accumulate_cell g l zeroState c
  simp only [zeroState] at h1 h2 h3 h4
  exact ⟨⟨by simpa using h1, by simpa using h2⟩, ⟨by simpa using h3, by simpa using h4⟩⟩

/-- The frame loop runs to completion exactly when no frame fails. -/
theorem processFrames_isSome (g : GridGeom) (s : GridState)
    (l : List (Option (List Obs))) :
    (processFrames g s l).isSome = true ↔ none ∉ l := by
  induction l generalizing s with
  | nil => simp [processFrames]
  | cons f rest ih =>
    cases f with
    | none => simp [processFrames]
    | some obs => simp [processFrames, ih (accumulate g s obs)]

/-- Every run either succeeds — and then the output is written and no frame
failed — or fails, and then the output is never written. -/
theorem runModel_shape (args : RunArgs) (env : RunEnv) :
    ((runModel args env).1 = none ∧
      IOEvent.writeOutput ∈ (runModel args env).2 ∧ none ∉ env.frames) ∨
    ((runModel args env).1 ≠ none ∧
      IOEvent.writeOutput ∉ (runModel args env).2) := by
  unfold runModel
  rcases hs : sanity_check_options args with _ | e
  · by_cases hSt : env.structure_ok
    · by_cases hIdx : args.has_index && !env.index_ok
      · right
        simp [hSt, hIdx]
      · have hidx2 : args.has_index = false ∨ env.index_ok = true := by
          cases hh : args.has_index
          · exact Or.inl rfl
          · cases hb : env.index_ok
            · exact absurd (by simp [hh, hb]) hIdx
            · exact Or.inr rfl
        by_cases hBox : env.box_valid
        · by_cases hLip : env.lipids_count = 0
          · right
            rcases hidx2 with hhi | hio
            · simp [hSt, hBox, hLip, hhi]
            · by_cases hhi : args.has_index <;> simp [hSt, hBox, hLip, hio, hhi]
          · by_cases hHead : env.heads_count = 0
            · right
              rcases hidx2 with hhi | hio
              · simp [hSt, hBox, hLip, hHead, hhi]
              · by_cases hhi : args.has_index <;>
                  simp [hSt, hBox, hLip, hHead, hio, hhi]
            · set g : GridGeom :=
                ⟨args.xmin.getD 0, args.xmax.getD env.box_x,
                 args.ymin.getD 0, args.ymax.getD env.box_y,
                 args.bin_size, args.bin_size⟩ with hg
              by_cases hValid : g.valid
              · rcases hp : processFrames g zeroState env.frames with _ | st
                · right
                  rcases hidx2 with hhi | hio
                  · simp [hSt, hBox, hLip, hHead, hValid, hg, hp, hhi]
                  · by_cases hhi : args.has_index <;>
                      simp [hSt, hBox, hLip, hHead, hValid, hg, hp, hio, hhi]
                · left
                  have hns : none ∉ env.frames := by
                    rw [← processFrames_isSome g zeroState env.frames, hp]
                    rfl
                  rcases hidx2 with hhi | hio
                  · simp [hSt, hBox, hLip, hHead, hValid, hg, hp, hhi, hns]
                  · by_cases hhi : args.has_index <;>
                      simp [hSt, hBox, hLip, hHead, hValid, hg, hp, hio, hhi, hns]
              · right
                rcases hidx2 with hhi | hio
                · simp [hSt, hBox, hLip, hHead, hValid, hg, hhi]
                · by_cases hhi : args.has_index <;>
                    simp [hSt, hBox, hLip, hHead, hValid, hg, hio, hhi]
        · right
          rcases hidx2 with hhi | hio
          · simp [hSt, hBox, hhi]
          · by_cases hhi : args.has_index <;> simp [hSt, hBox, hio, hhi]
    · right
      simp [hSt]
  · right
    simp

/-- C9: a failing frame-level step aborts the whole run — the run's outcome is
an error, the output file is never written, and conversely the writer is only
reached when every frame was processed successfully. -/
theorem frame_failure_aborts (args : RunArgs) (env : RunEnv) :
    (none ∈ env.frames →
      ∃ e, (runModel args env).1 = some e ∧
        IOEvent.writeOutput ∉ (runModel args env).2) ∧
    (IOEvent.writeOutput ∈ (runModel args env).2 →
      (runModel args env).1 = none ∧ none ∉ env.frames) := by
  rcases runModel_shape args env with ⟨h1, h2, h3⟩ | ⟨h1, h2⟩
  · exact ⟨fun hmem => absurd hmem h3, fun _ => ⟨h1, h3⟩⟩
  · refine ⟨fun _ => ?_, fun hw => absurd hw h2⟩
    rcases ho : (runModel args env).1 with _ | e
    · exact absurd ho h1
    · exact ⟨e, rfl, h2⟩

/-- Witness for C9: a run whose second frame fails returns an error and never
writes the output. -/
theorem frame_failure_aborts_witness :
    ∃ e, (runModel ⟨30, none, none, none, none, 1, false⟩
        ⟨true, true, true, 10, 10, 5, 5, [some [], none]⟩).1 = some e ∧
      IOEvent.writeOutput ∉ (runModel ⟨30, none, none, none, none, 1, false⟩
        ⟨true, true, true, 10, 10, 5, 5, [some [], none]⟩).2 :=
  (frame_failure_aborts ⟨30, none, none, none, none, 1, false⟩
    ⟨true, true, true, 10, 10, 5, 5, [some [], none]⟩).1 (by simp)

/-- Counterexample to C7 as stated: with a zero cell size (a configuration
error) but otherwise valid inputs, the run reads the structure file first and
only then fails at grid construction — so not every configuration error is
detected before any I/O. -/
theorem config_error_after_io_cex :
    runModel ⟨30, none, none, none, none, 0, false⟩
        ⟨true, true, true, 10, 10, 5, 5, []⟩ =
      (some RunError.invalidGrid, [IOEvent.readStructure]) := by
  decide

/-- C7 (amended): a zero sample threshold and an inverted pair of supplied
bounds are rejected before any I/O with a non-zero exit; a zero or negative
cell size also aborts with a non-zero exit before the trajectory is opened
and before any output is written, but only at grid construction, after the
structure (and optional index) files have been read. -/
theorem config_error_detection (args : RunArgs) (env : RunEnv) :
    (args.nan_limit = 0 →
      runModel args env = (some RunError.nanLimitZero, []) ∧
        exitCode (runModel args env) = 1) ∧
    (args.nan_limit ≠ 0 → optGt args.xmin args.xmax = true →
      runModel args env = (some RunError.xRangeInverted, []) ∧
        exitCode (runModel args env) = 1) ∧
    (args.nan_limit ≠ 0 → optGt args.xmin args.xmax = false →
      optGt args.ymin args.ymax = true →
      runModel args env = (some RunError.yRangeInverted, []) ∧
        exitCode (runModel args env) = 1) ∧
    (args.bin_size ≤ 0 →
      (runModel args env).1.isSome = true ∧
      IOEvent.readTrajectory ∉ (runModel args env).2 ∧
      IOEvent.writeOutput ∉ (runModel args env).2 ∧
      exitCode (runModel args env) = 1) := by
  refine ⟨?_, ?_, ?_, ?_⟩
  · intro h
    simp [runModel, sanity_check_options, exitCode, h]
  · intro hn hx
    simp [runModel, sanity_check_options, exitCode, hn, hx]
  · intro hn hx hy
    simp [runModel, sanity_check_options, exitCode, hn, hx, hy]
  · intro hbin
    have hval : ∀ xmn xmx ymn ymx : ℚ,
        GridGeom.valid ⟨xmn, xmx, ymn, ymx, args.bin_size, args.bin_size⟩ = false := by
      intro xmn xmx ymn ymx
      simp [GridGeom.valid, not_lt.mpr hbin]
    unfold runModel
    rcases hs : sanity_check_options args with _ | e
    · by_cases hSt : env.structure_ok
      · by_cases hIdx : args.has_index && !env.index_ok
        · simp [hSt, hIdx, exitCode]
        · have hidx2 : args.has_index = false ∨ env.index_ok = true := by
            cases hh : args.has_index
            · exact Or.inl rfl
            · cases hb : env.index_ok
              · exact absurd (by simp [hh, hb]) hIdx
              · exact Or.inr rfl
          by_cases hBox : env.box_valid
          · by_cases hLip : env.lipids_count = 0
            · rcases hidx2 with hhi | hio
              · simp [hSt, hBox, hLip, hhi, exitCode]
              · by_cases hhi : args.has_index <;>
                  simp [hSt, hBox, hLip, hio, hhi, exitCode]
            · by_cases hHead : env.heads_count = 0
              · rcases hidx2 with hhi | hio
                · simp [hSt, hBox, hLip, hHead, hhi, exitCode]
                · by_cases hhi : args.has_index <;>
                    simp [hSt, hBox, hLip, hHead, hio, hhi, exitCode]
              · rcases hidx2 with hhi | hio
                · simp [hSt, hBox, hLip, hHead, hhi, hval, exitCode]
                · by_cases hhi : args.has_index <;>
                    simp [hSt, hBox, hLip, hHead, hio, hhi, hval, exitCode]
          · rcases hidx2 with hhi | hio
            · simp [hSt, hBox, hhi, exitCode]
            · by_cases hhi : args.has_index <;> simp [hSt, hBox, hio, hhi, exitCode]
      · simp [hSt, exitCode]
    · simp [exitCode]

/-- Witness for C7 (amended): a zero sample threshold is rejected with exit
code 1 before any file is touched. -/
theorem config_error_detection_witness :
    runModel ⟨0, none, none, none, none, 1, false⟩
        ⟨true, true, true, 10, 10, 5, 5, []⟩ =
      (some RunError.nanLimitZero, []) ∧
    exitCode (runModel ⟨0, none, none, none, none, 1, false⟩
        ⟨true, true, true, 10, 10, 5, 5, []⟩) = 1 :=
  (config_error_detection ⟨0, none, none, none, none, 1, false⟩
    ⟨true, true, true, 10, 10, 5, 5, []⟩).1 rfl

/-- `optGt` holds exactly when the left bound is supplied and the right bound
is either omitted or smaller: Rust's `Option` ordering puts `None` below
every value. -/
theorem optGt_iff (a b : Option ℚ) :
    optGt a b = true ↔
      ∃ x, a = some x ∧ (b = none ∨ ∃ y, b = some y ∧ y < x) := by
  cases a <;> cases b <;> simp [optGt]

/-- When the sanity checks pass, no later step of the run reports one of the
three sanity-check errors. -/
theorem runModel_no_sanity_err (args : RunArgs) (env : RunEnv)
    (hs : sanity_check_options args = none) :
    (runModel args env).1 ≠ some RunError.nanLimitZero ∧
    (runModel args env).1 ≠ some RunError.xRangeInverted ∧
    (runModel args env).1 ≠ some RunError.yRangeInverted := by
  unfold runModel
  rw [hs]
  refine ⟨?_, ?_, ?_⟩ <;>
    · rcases hp : processFrames ⟨args.xmin.getD 0, args.xmax.getD env.box_x,
        args.ymin.getD 0, args.ymax.getD env.box_y, args.bin_size,
        args.bin_size⟩ zeroState env.frames with _ | st <;>
        (repeat' split) <;> simp_all
      all_goals
        cases hv : GridGeom.valid ⟨args.xmin.getD 0, args.xmax.getD env.box_x,
          args.ymin.getD 0, args.ymax.getD env.box_y, args.bin_size,
          args.bin_size⟩ <;> simp [hv]

/-- Counterexample to C8 as stated: supplying only `xmin = 1` with `xmax`
omitted keeps the effective range `[1, 10]` non-inverted, yet the run is
rejected with the x-range error before reading anything. -/
theorem range_error_cex :
    runModel ⟨30, some 1, none, none, none, 1, false⟩
        ⟨true, true, true, 10, 10, 5, 5, []⟩ =
      (some RunError.xRangeInverted, []) ∧
    ((⟨30, some 1, none, none, none, 1, false⟩ : RunArgs).xmin.getD 0 : ℚ) ≤
      (⟨30, some 1, none, none, none, 1, false⟩ : RunArgs).xmax.getD
        (⟨true, true, true, 10, 10, 5, 5, []⟩ : RunEnv).box_x := by
  constructor <;> decide

/-- C8 (amended): with a non-zero sample threshold, the sanity check compares
the optional bounds of each axis directly with Rust's `Option` ordering,
under which an omitted bound is below every supplied value.  The x-axis range
error is reported exactly when `xmin` is supplied and `xmax` is either
omitted or smaller; the y-axis range error is reported exactly when the
x-axis check did not fire and `ymin` is supplied with `ymax` omitted or
smaller.  So supplying only the minimum of an axis is always rejected, even
when the defaulted maximum keeps the effective range non-inverted, while
supplying only the maximum passes the sanity check; if the effective range
(defaulted minimum 0 against the supplied maximum) is then inverted, a run
whose structure, index, box and group lookups succeed fails at grid
construction instead. -/
theorem range_error_iff (args : RunArgs) (env : RunEnv)
    (h : args.nan_limit ≠ 0) :
    ((runModel args env).1 = some RunError.xRangeInverted ↔
      ∃ x, args.xmin = some x ∧
        (args.xmax = none ∨ ∃ y, args.xmax = some y ∧ y < x)) ∧
    ((runModel args env).1 = some RunError.yRangeInverted ↔
      optGt args.xmin args.xmax = false ∧
        ∃ x, args.ymin = some x ∧
          (args.ymax = none ∨ ∃ y, args.ymax = some y ∧ y < x)) ∧
    (optGt args.xmin args.xmax = false → optGt args.ymin args.ymax = false →
      env.structure_ok = true → (args.has_index = true → env.index_ok = true) →
      env.box_valid = true → env.lipids_count ≠ 0 → env.heads_count ≠ 0 →
      (¬(args.xmin.getD 0 ≤ args.xmax.getD env.box_x) ∨
        ¬(args.ymin.getD 0 ≤ args.ymax.getD env.box_y)) →
      (runModel args env).1 = some RunError.invalidGrid) := by
  refine ⟨?_, ?_, ?_⟩
  · rw [← optGt_iff]
    constructor
    · intro hrun
      cases hb : optGt args.xmin args.xmax
      · exfalso
        have hxne : ¬(optGt args.xmin args.xmax = true) := by simp [hb]
        by_cases hy : optGt args.ymin args.ymax
        · have hs : sanity_check_options args = some RunError.yRangeInverted := by
            simp [sanity_check_options, h, hxne, hy]
          unfold runModel at hrun
          rw [hs] at hrun
          simp at hrun
        · have hs : sanity_check_options args = none := by
            simp [sanity_check_options, h, hxne, hy]
          exact (runModel_no_sanity_err args env hs).2.1 hrun
      · rfl
    · intro hgt
      simp [runModel, sanity_check_options, h, hgt]
  · rw [← optGt_iff]
    constructor
    · intro hrun
      cases hbx : optGt args.xmin args.xmax
      · cases hby : optGt args.ymin args.ymax
        · exfalso
          have hs : sanity_check_options args = none := by
            simp [sanity_check_options, h, hbx, hby]
          exact (runModel_no_sanity_err args env hs).2.2 hrun
        · exact ⟨rfl, rfl⟩
      · exfalso
        have hs : sanity_check_options args = some RunError.xRangeInverted := by
          simp [sanity_check_options, h, hbx]
        unfold runModel at hrun
        rw [hs] at hrun
        simp at hrun
    · rintro ⟨hbx, hby⟩
      simp [runModel, sanity_check_options, h, hbx, hby]
  · intro hbx hby hSt hIo hBox hLip hHead hinv
    have hs : sanity_check_options args = none := by
      simp [sanity_check_options, h, hbx, hby]
    have hval : GridGeom.valid ⟨args.xmin.getD 0, args.xmax.getD env.box_x,
        args.ymin.getD 0, args.ymax.getD env.box_y,
        args.bin_size, args.bin_size⟩ = false := by
      rcases hinv with hi | hi <;> simp [GridGeom.valid, hi]
    unfold runModel
    rw [hs]
    cases hhi : args.has_index
    · simp [hSt, hhi, hBox, hLip, hHead, hval]
    · simp [hSt, hhi, hIo hhi, hBox, hLip, hHead, hval]

/-- Witness for C8 (amended): with `xmin = 1` supplied and `xmax` omitted the
x-range error is reported even though the effective range is fine; and with
only `ymax = -1` supplied the sanity check passes but the run fails at grid
construction because the defaulted `ymin = 0` inverts the effective range. -/
theorem range_error_iff_witness :
    (runModel ⟨30, some 1, none, none, none, 1, true⟩
        ⟨true, true, true, 10, 10, 5, 5, []⟩).1 =
      some RunError.xRangeInverted ∧
    (runModel ⟨30, none, none, none, some (-1), 1, false⟩
        ⟨true, true, true, 10, 10, 5, 5, []⟩).1 =
      some RunError.invalidGrid :=
  ⟨(range_error_iff ⟨30, some 1, none, none, none, 1, true⟩
      ⟨true, true, true, 10, 10, 5, 5, []⟩ (by decide)).1.mpr
    ⟨1, rfl, Or.inl rfl⟩,
   (range_error_iff ⟨30, none, none, none, some (-1), 1, false⟩
      ⟨true, true, true, 10, 10, 5, 5, []⟩ (by decide)).2.2
    rfl rfl rfl (fun _ => rfl) rfl (by decide) (by decide)
    (Or.inr (by decide))⟩

end Memthick
